import Mathlib

/-!
Verification of the Buddy Tales voice-over production tool (`main.py`).

The development shallowly embeds the script-processing pipeline: the line
parser, the dialogue cleaner (bracket removal, whitespace normalization),
the voice registry lookup, the per-line audio generation, the batch
orchestrator `generate_voice_over`, and the workspace `clear_generated_files`
operation.  External effects (the Vertex AI text-to-speech provider, the
environment, the filesystem) are modelled as explicit parameters: the
provider is a function from voice model name and dialogue text to either
success or an exception message, and file writes are recorded as the list of
artifact filenames produced.
-/

/-- Whitespace for Python `str.strip()` / regex `\s`: space, tab, newline,
carriage return, vertical tab, form feed, plus the extra line-break
characters that Python treats as whitespace. -/
def isPySpace (c : Char) : Bool :=
  c == ' ' || c == '\t' || c == '\n' || c == '\r' || c == '\x0b' || c == '\x0c' ||
  c == '\x1c' || c == '\x1d' || c == '\x1e' || c == '\u0085' || c == '\u2028' || c == '\u2029'

/-- Drop trailing characters satisfying `isPySpace` (the right half of
Python `str.strip()`). -/
def dropTrailingSpaces : List Char → List Char
  | [] => []
  | c :: rest =>
    if isPySpace c && (dropTrailingSpaces rest).isEmpty then []
    else c :: dropTrailingSpaces rest

/-- Python `str.strip()` on a list of characters: drop leading and trailing
whitespace. -/
def pyStripList (l : List Char) : List Char :=
  dropTrailingSpaces (l.dropWhile isPySpace)

/-- Python `re.sub(r'\s+', ' ', s)`: replace every maximal run of whitespace
characters by a single space. -/
def collapseList : List Char → List Char
  | [] => []
  | [c] => if isPySpace c then [' '] else [c]
  | c :: d :: rest =>
    if isPySpace c then
      if isPySpace d then collapseList (d :: rest)
      else ' ' :: collapseList (d :: rest)
    else c :: collapseList (d :: rest)

/-- Scanner for Python `re.sub(r'\[.*?\]', '', s)`.  The first argument is
`none` when scanning outside a candidate match, and `some pend` when `pend`
(starting with an unclosed opening bracket) is the text of a candidate match
seen so far.  A closing bracket completes (and deletes) the candidate; a
newline aborts it (in Python regex, `.` does not match a newline), emitting
the pending text verbatim; end of input likewise emits the pending text. -/
def rbAux : Option (List Char) → List Char → List Char
  | none, [] => []
  | some pend, [] => pend
  | none, c :: rest =>
    if c == '[' then rbAux (some ['[']) rest
    else c :: rbAux none rest
  | some pend, c :: rest =>
    if c == ']' then rbAux none rest
    else if c == '\n' then pend ++ '\n' :: rbAux none rest
    else rbAux (some (pend ++ [c])) rest

/-- Python `re.sub(r'\[.*?\]', '', s)` on a list of characters: remove every
bracketed span, where a span runs from a `[` to the nearest following `]`
with no newline in between. -/
def removeBracketsList (l : List Char) : List Char :=
  rbAux none l

/-- The dialogue cleaner of `generate_voice_over` (main.py lines 89-90):
`re.sub(r'\[.*?\]', '', original_dialogue).strip()` followed by
`re.sub(r'\s+', ' ', cleaned_dialogue)`. -/
def cleanDialogue (s : String) : String :=
  ⟨collapseList (pyStripList (removeBracketsList s.data))⟩

/-- Python `str.strip()` on strings. -/
def pyStrip (s : String) : String :=
  ⟨pyStripList s.data⟩

/-- Python `line.split(':', 1)` restricted to the information the caller
uses: `none` when the line has no colon (so `len(parts) < 2`), otherwise the
text before and after the first colon. -/
def splitOnceColonList : List Char → Option (List Char × List Char)
  | [] => none
  | c :: rest =>
    if c == ':' then some ([], rest)
    else
      match splitOnceColonList rest with
      | none => none
      | some (a, b) => some (c :: a, b)

/-- String version of `line.split(':', 1)`. -/
def splitOnceColon (s : String) : Option (String × String) :=
  match splitOnceColonList s.data with
  | none => none
  | some (a, b) => some (⟨a⟩, ⟨b⟩)

/-- Characters at which Python `str.splitlines()` breaks a line. -/
def isLineBreakChar (c : Char) : Bool :=
  c == '\n' || c == '\r' || c == '\x0b' || c == '\x0c' ||
  c == '\x1c' || c == '\x1d' || c == '\x1e' || c == '\u0085' || c == '\u2028' || c == '\u2029'

/-- Worker for Python `str.splitlines()`: `cur` is the current line built so
far; `\r\n` counts as a single break; a trailing break does not open an
extra empty line. -/
def splitlinesAux (cur : List Char) : List Char → List (List Char)
  | [] => if cur.isEmpty then [] else [cur]
  | '\r' :: '\n' :: rest2 => cur :: splitlinesAux [] rest2
  | '\r' :: rest => cur :: splitlinesAux [] rest
  | c :: rest =>
    if isLineBreakChar c then cur :: splitlinesAux [] rest
    else splitlinesAux (cur ++ [c]) rest

/-- Python `str.splitlines()`. -/
def pySplitlines (s : String) : List String :=
  (splitlinesAux [] s.data).map (fun l => ⟨l⟩)

/-- Python `str.lower()` (ASCII letters; the scripts and filenames at issue
are ASCII). -/
def pyLower (s : String) : String :=
  ⟨s.data.map Char.toLower⟩

/-- Does `seg` occur at the head of `l`? -/
def leadsWith : List Char → List Char → Bool
  | [], _ => true
  | _ :: _, [] => false
  | s :: ss, c :: cs => s == c && leadsWith ss cs

/-- Does `seg` occur somewhere inside `l` (Python `seg in l`)? -/
def segOccurs (seg : List Char) : List Char → Bool
  | [] => leadsWith seg []
  | c :: rest => leadsWith seg (c :: rest) || segOccurs seg rest

/-- Python `name.lower().endswith('.txt')` from main.py line 68. -/
def endsWithTxt (name : String) : Bool :=
  leadsWith ".txt".data.reverse (pyLower name).data.reverse

/-- The `CHARACTER_VOICES` configuration dictionary (main.py lines 16-23). -/
def CHARACTER_VOICES : List (String × String) :=
  [("Krishna", "text-to-speech-en-in-standard-c"),
   ("Radha", "text-to-speech-en-in-wavenet-d"),
   ("Ganesha", "text-to-speech-en-us-wavenet-e"),
   ("Narrator", "text-to-speech-en-us-wavenet-f"),
   ("Friend1", "text-to-speech-en-us-standard-c"),
   ("Friend2", "text-to-speech-en-au-wavenet-b")]

/-- The code's voice resolution (main.py lines 91-92):
`CHARACTER_VOICES.get(character_name)` followed by the Python-falsy test
`if not voice_model_name`, which treats both a missing key and an empty
voice string as unconfigured. -/
def getVoice (nm : String) : Option String :=
  match CHARACTER_VOICES.lookup nm with
  | none => none
  | some v => if v = "" then none else some v

/-- Python `f"{n:03d}"`: decimal digits, zero-padded on the left to width 3. -/
def pad3 (n : Nat) : String :=
  let s := toString n
  if s.length < 3 then ⟨List.replicate (3 - s.length) '0'⟩ ++ s else s

/-- Output directory selection (main.py lines 28-31): `/tmp/voice_overs` when
the `K_SERVICE` environment variable is truthy, else `voice_overs`. -/
def outputDirFor (env : String → Option String) : String :=
  match env "K_SERVICE" with
  | none => "voice_overs"
  | some s => if s = "" then "voice_overs" else "/tmp/voice_overs"

/-- The format-error entry of main.py line 86:
`f"Line {i+1} (Format Error): '{line}'"` (note: `line` has already been
stripped at line 81). -/
def formatErrorFor (i : Nat) (line : String) : String :=
  "Line " ++ toString (i + 1) ++ " (Format Error): \x27" ++ line ++ "\x27"

/-- The unconfigured-character entry of main.py line 93:
`f"Line {i+1}: Character '{character_name}' not configured."`. -/
def notConfiguredFor (i : Nat) (nm : String) : String :=
  "Line " ++ toString (i + 1) ++ ": Character \x27" ++ nm ++ "\x27 not configured."

/-- The per-line failure entry of main.py line 102:
`f"Line {i+1} ({character_name}): {error_message}"`. -/
def lineErrorFor (i : Nat) (nm msg : String) : String :=
  "Line " ++ toString (i + 1) ++ " (" ++ nm ++ "): " ++ msg

/-- The empty-dialogue message of main.py line 54. -/
def noTextMsg : String :=
  "No dialogue text remaining after removing brackets."

/-- The provider-exception message of main.py line 63:
`f"API Error for '{character_name}': {e}"`. -/
def apiErrorFor (nm e : String) : String :=
  "API Error for \x27" ++ nm ++ "\x27: " ++ e

/-- The synthesis provider as an opaque effect: given a voice model name and
the dialogue text, `TextToSpeechModel.from_pretrained(...)` plus
`model.predict(...)` plus the audio-file write either succeed or raise an
exception carrying a message. -/
abbrev Provider : Type :=
  String → String → Except String Unit

/-- The `generate_audio_for_line` function (main.py lines 51-63).  It returns
the `(success, error_message)` pair of the code; the file write is modelled
inside the provider call, and the caller records the filename on success. -/
def generate_audio_for_line (provider : Provider)
    (character_name voice_model_name dialogue_text output_filename : String) :
    Bool × String :=
  if dialogue_text = "" then
    (false, noTextMsg)
  else
    match provider voice_model_name dialogue_text with
    | .ok _ => (true, "")
    | .error e => (false, apiErrorFor character_name e)

/-- The mutable loop state of `generate_voice_over` (main.py line 74):
`line_processed_count`, `audio_files_generated_count`, `error_summary`,
`output_html`, plus the list of audio files written so far (the side-effect
trace of successful `generate_audio_for_line` calls). -/
structure BatchState where
  processed : Nat
  generated : Nat
  errors : List String
  artifacts : List String
  outputHtml : String
  deriving Repr, DecidableEq

/-- The initial loop state of main.py line 74. -/
def initialBatchState : BatchState :=
  { processed := 0, generated := 0, errors := [], artifacts := [], outputHtml := "" }

/-- The HTML fragment appended on success (main.py line 100). -/
def htmlFor (nm dlg filename : String) : String :=
  "<p><strong>" ++ nm ++ ":</strong> " ++ dlg ++ "</p><audio controls src=\x27file=" ++
  filename ++ "\x27></audio><br><br>"

/-- The line parser for one non-blank (already stripped) line
(main.py lines 84-88): split at the first colon; if there is no colon
(`len(parts) < 2`) or either side is empty after stripping, the result is
the format error of line 86, else the stripped character name and dialogue. -/
def parseNonBlankLine (i : Nat) (line : String) : Except String (String × String) :=
  match splitOnceColon line with
  | none => .error (formatErrorFor i line)
  | some (a, b) =>
    if pyStrip a = "" || pyStrip b = "" then .error (formatErrorFor i line)
    else .ok (pyStrip a, pyStrip b)

/-- One iteration of the `for i, line in enumerate(...)` loop of
`generate_voice_over` (main.py lines 80-102).  `p.1` is the 0-based source
line index, `p.2` the raw line. -/
def processLine (dir : String) (provider : Provider) (st : BatchState)
    (p : Nat × String) : BatchState :=
  let line := pyStrip p.2
  if line = "" then st
  else
    let processed := st.processed + 1
    match parseNonBlankLine p.1 line with
    | .error e => { st with processed := processed, errors := st.errors ++ [e] }
    | .ok (nm, dlg) =>
      let cleaned := cleanDialogue dlg
      match getVoice nm with
      | none =>
        { st with processed := processed, errors := st.errors ++ [notConfiguredFor p.1 nm] }
      | some v =>
        let filename := dir ++ "/" ++ pad3 processed ++ "_" ++ nm ++ ".mp3"
        let r := generate_audio_for_line provider nm v cleaned filename
        if r.1 then
          { st with processed := processed, generated := st.generated + 1,
                    artifacts := st.artifacts ++ [filename],
                    outputHtml := st.outputHtml ++ htmlFor nm dlg filename }
        else
          { st with processed := processed,
                    errors := st.errors ++ [lineErrorFor p.1 nm r.2] }

/-- The whole processing loop of `generate_voice_over` (main.py lines 80-102)
over the script content. -/
def runBatch (dir : String) (provider : Provider) (content : String) : BatchState :=
  ((pySplitlines content).enum).foldl (processLine dir provider) initialBatchState

/-- The number of non-blank lines of the script: the lines of
`script_content.splitlines()` whose `strip()` is non-empty. -/
def countNonBlank (content : String) : Nat :=
  ((pySplitlines content).filter (fun l => pyStrip l ≠ "")).length

/-- The uploaded file object: its `.name` and the result of
`.read().decode('utf-8')`, which may raise. -/
structure ScriptFile where
  name : String
  content : Except String String

/-- The message of the `ValueError` raised by `initialize_vertex_ai`
(main.py line 43). -/
def configErrorMsg : String :=
  "Configuration Error: GCP_PROJECT_ID environment variable is not set. " ++
  "Please set it in the Cloud Run deployment settings."

/-- The message of the `RuntimeError` raised by `initialize_vertex_ai`
(main.py line 49). -/
def initFailedFor (e : String) : String :=
  "Vertex AI Init Failed. Check Service Account permissions. Original error: " ++ e

/-- The `initialize_vertex_ai` function (main.py lines 37-49): `env` models
`os.environ.get`, and `initExc` models whether `vertexai.init` raises.  The
Python-falsy test `if not project_id` treats a missing and an empty
`GCP_PROJECT_ID` alike. -/
def initialize_vertex_ai (env : String → Option String)
    (initExc : Except String Unit) : Except String Unit :=
  match env "GCP_PROJECT_ID" with
  | none => .error configErrorMsg
  | some pid =>
    if pid = "" then .error configErrorMsg
    else
      match initExc with
      | .ok _ => .ok ()
      | .error e => .error (initFailedFor e)

/-- Outcome of one `generate_voice_over` invocation: either a fatal
batch-level error returned before the processing loop starts (so no line is
parsed or processed and no per-line state exists), or the final loop state. -/
inductive GvoOutcome where
  | fatal (message : String)
  | completed (st : BatchState)
  deriving Repr, DecidableEq

/-- The control flow of `generate_voice_over` (main.py lines 65-102) up to
the final report: input validation, provider initialization, script read,
then the processing loop. -/
def generate_voice_over_outcome (env : String → Option String)
    (initExc : Except String Unit) (provider : Provider)
    (file : Option ScriptFile) : GvoOutcome :=
  match file with
  | none => .fatal "Please upload a script file."
  | some f =>
    if endsWithTxt f.name = false then
      .fatal "Invalid File Type: Please upload a .txt file."
    else
      match initialize_vertex_ai env initExc with
      | .error e => .fatal e
      | .ok _ =>
        match f.content with
        | .error e => .fatal ("Error reading script file: " ++ e)
        | .ok content => .completed (runBatch (outputDirFor env) provider content)

/-- The status message of main.py lines 104-105. -/
def statusFor (st : BatchState) : String :=
  "Processed " ++ toString st.processed ++ " lines. Generated " ++
  toString st.generated ++ " files." ++
  (if st.errors = [] then ""
   else "<br><br><strong>Errors:</strong><br>" ++ String.intercalate "<br>" st.errors)

/-- The rendered `(status_message, output_html, button_visible)` triple
returned by `generate_voice_over` (main.py lines 67-78 and 104-107). -/
def renderOutcome : GvoOutcome → String × String × Bool
  | .fatal msg => (msg, "", false)
  | .completed st =>
    (statusFor st,
     if st.outputHtml = "" then "No audio generated. Check status for errors."
     else st.outputHtml,
     decide (0 < st.generated))

/-- The `generate_voice_over` Gradio handler (main.py lines 65-107). -/
def generate_voice_over (env : String → Option String)
    (initExc : Except String Unit) (provider : Provider)
    (file : Option ScriptFile) : String × String × Bool :=
  renderOutcome (generate_voice_over_outcome env initExc provider file)

/-- The `clear_generated_files` function (main.py lines 109-116).
`dirExists` models `os.path.exists(OUTPUT_DIR)`, `files` the directory
listing, and `deleteOk` which `os.remove` calls succeed (a failed removal is
only logged and the sweep continues).  The result is the code's returned
triple paired with the list of files actually deleted (the side-effect
trace). -/
def clear_generated_files (dirExists : Bool) (files : List String)
    (deleteOk : String → Bool) : (String × String × Bool) × List String :=
  if dirExists = false then
    (("Directory does not exist.", "", false), [])
  else
    (("Cleared " ++ toString (files.countP deleteOk) ++ " files.", "", false),
     files.filter deleteOk)

/-- Reference scanner for the specification's dialogue cleaning: remove every
substring delimited by a literal opening bracket and the nearest following
closing bracket, with no newline exception.  Modelled from the spec: the
spec describes the removal on dialogue text, which never contains a
newline. -/
def refRbAux : Option (List Char) → List Char → List Char
  | none, [] => []
  | some pend, [] => pend
  | none, c :: rest =>
    if c == '[' then refRbAux (some ['[']) rest
    else c :: refRbAux none rest
  | some pend, c :: rest =>
    if c == ']' then refRbAux none rest
    else refRbAux (some (pend ++ [c])) rest

/-- Reference bracket removal, following the spec's words. -/
def refRemoveBracketsList (l : List Char) : List Char :=
  refRbAux none l

/-- Reference cleaning, following the spec's words in the spec's order:
remove bracketed spans, then collapse every whitespace run to a single
space, then trim. -/
def refCleanSpec (s : String) : String :=
  ⟨pyStripList (collapseList (refRemoveBracketsList s.data))⟩

/-- Is there an opening bracket somewhere in `l` with a closing bracket
anywhere after it?  Exactly when this holds does `re.sub(r'\\[.*?\\]', '', s)`
find a match in a newline-free string. -/
def hasOpenThenClose : List Char → Bool
  | [] => false
  | c :: rest =>
    if c == '[' then rest.any (fun x => x == ']') else hasOpenThenClose rest

/-- The subsequence of bracket characters of `l`; whitespace edits leave it
unchanged. -/
def bracketsOnly (l : List Char) : List Char :=
  l.filter (fun c => c == '[' || c == ']')

/-! ### Per-branch lemmas about one loop iteration -/

theorem processLine_blank (dir : String) (provider : Provider) (st : BatchState)
    (i : Nat) (raw : String) (h : pyStrip raw = "") :
    processLine dir provider st (i, raw) = st := by
  simp [processLine, h]

theorem processLine_format (dir : String) (provider : Provider) (st : BatchState)
    (i : Nat) (raw e : String) (hnb : pyStrip raw ≠ "")
    (hp : parseNonBlankLine i (pyStrip raw) = .error e) :
    processLine dir provider st (i, raw) =
      { st with processed := st.processed + 1, errors := st.errors ++ [e] } := by
  simp [processLine, hnb, hp]

theorem processLine_notConfigured (dir : String) (provider : Provider)
    (st : BatchState) (i : Nat) (raw nm dlg : String) (hnb : pyStrip raw ≠ "")
    (hp : parseNonBlankLine i (pyStrip raw) = .ok (nm, dlg))
    (hv : getVoice nm = none) :
    processLine dir provider st (i, raw) =
      { st with processed := st.processed + 1,
                errors := st.errors ++ [notConfiguredFor i nm] } := by
  simp [processLine, hnb, hp, hv]

theorem processLine_noText (dir : String) (provider : Provider)
    (st : BatchState) (i : Nat) (raw nm dlg v : String) (hnb : pyStrip raw ≠ "")
    (hp : parseNonBlankLine i (pyStrip raw) = .ok (nm, dlg))
    (hv : getVoice nm = some v) (hc : cleanDialogue dlg = "") :
    processLine dir provider st (i, raw) =
      { st with processed := st.processed + 1,
                errors := st.errors ++ [lineErrorFor i nm noTextMsg] } := by
  simp [processLine, hnb, hp, hv, generate_audio_for_line, hc]

theorem processLine_apiError (dir : String) (provider : Provider)
    (st : BatchState) (i : Nat) (raw nm dlg v e : String) (hnb : pyStrip raw ≠ "")
    (hp : parseNonBlankLine i (pyStrip raw) = .ok (nm, dlg))
    (hv : getVoice nm = some v) (hc : cleanDialogue dlg ≠ "")
    (hpr : provider v (cleanDialogue dlg) = .error e) :
    processLine dir provider st (i, raw) =
      { st with processed := st.processed + 1,
                errors := st.errors ++ [lineErrorFor i nm (apiErrorFor nm e)] } := by
  simp [processLine, hnb, hp, hv, generate_audio_for_line, hc, hpr]

theorem processLine_success (dir : String) (provider : Provider)
    (st : BatchState) (i : Nat) (raw nm dlg v : String) (hnb : pyStrip raw ≠ "")
    (hp : parseNonBlankLine i (pyStrip raw) = .ok (nm, dlg))
    (hv : getVoice nm = some v) (hc : cleanDialogue dlg ≠ "")
    (hpr : provider v (cleanDialogue dlg) = .ok ()) :
    processLine dir provider st (i, raw) =
      { st with processed := st.processed + 1, generated := st.generated + 1,
                artifacts := st.artifacts ++
                  [dir ++ "/" ++ pad3 (st.processed + 1) ++ "_" ++ nm ++ ".mp3"],
                outputHtml := st.outputHtml ++ htmlFor nm dlg
                  (dir ++ "/" ++ pad3 (st.processed + 1) ++ "_" ++ nm ++ ".mp3") } := by
  simp [processLine, hnb, hp, hv, generate_audio_for_line, hc, hpr]

/-- Every processed (non-blank) line yields exactly one outcome: either one
new artifact (and a generated-count increment) or one new error entry,
never both and never neither. -/
theorem processLine_one_outcome (dir : String) (provider : Provider)
    (st : BatchState) (i : Nat) (raw : String) (hnb : pyStrip raw ≠ "") :
    (processLine dir provider st (i, raw)).processed = st.processed + 1 ∧
    (((processLine dir provider st (i, raw)).generated = st.generated + 1 ∧
      (processLine dir provider st (i, raw)).artifacts.length = st.artifacts.length + 1 ∧
      (processLine dir provider st (i, raw)).errors = st.errors) ∨
     ((processLine dir provider st (i, raw)).generated = st.generated ∧
      (processLine dir provider st (i, raw)).artifacts = st.artifacts ∧
      (processLine dir provider st (i, raw)).errors.length = st.errors.length + 1)) := by
  match hp : parseNonBlankLine i (pyStrip raw) with
  | .error e =>
    rw [processLine_format dir provider st i raw e hnb hp]
    simp
  | .ok (nm, dlg) =>
    match hv : getVoice nm with
    | none =>
      rw [processLine_notConfigured dir provider st i raw nm dlg hnb hp hv]
      simp
    | some v =>
      by_cases hc : cleanDialogue dlg = ""
      · rw [processLine_noText dir provider st i raw nm dlg v hnb hp hv hc]
        simp
      · match hpr : provider v (cleanDialogue dlg) with
        | .ok () =>
          rw [processLine_success dir provider st i raw nm dlg v hnb hp hv hc hpr]
          simp
        | .error e =>
          rw [processLine_apiError dir provider st i raw nm dlg v e hnb hp hv hc hpr]
          simp

/-- A successful iteration appends exactly the artifact whose filename index
is the processed-line count including the current line. -/
theorem processLine_artifact_naming (dir : String) (provider : Provider)
    (st : BatchState) (i : Nat) (raw : String) :
    (processLine dir provider st (i, raw)).artifacts = st.artifacts ∨
    ∃ nm, (processLine dir provider st (i, raw)).artifacts =
        st.artifacts ++ [dir ++ "/" ++ pad3 (st.processed + 1) ++ "_" ++ nm ++ ".mp3"] ∧
      (processLine dir provider st (i, raw)).processed = st.processed + 1 := by
  by_cases hnb : pyStrip raw = ""
  · left; rw [processLine_blank dir provider st i raw hnb]
  · match hp : parseNonBlankLine i (pyStrip raw) with
    | .error e =>
      left; rw [processLine_format dir provider st i raw e hnb hp]
    | .ok (nm, dlg) =>
      match hv : getVoice nm with
      | none =>
        left; rw [processLine_notConfigured dir provider st i raw nm dlg hnb hp hv]
      | some v =>
        by_cases hc : cleanDialogue dlg = ""
        · left; rw [processLine_noText dir provider st i raw nm dlg v hnb hp hv hc]
        · match hpr : provider v (cleanDialogue dlg) with
          | .ok () =>
            right
            exact ⟨nm, by rw [processLine_success dir provider st i raw nm dlg v hnb hp hv hc hpr],
                   by rw [processLine_success dir provider st i raw nm dlg v hnb hp hv hc hpr]⟩
          | .error e =>
            left; rw [processLine_apiError dir provider st i raw nm dlg v e hnb hp hv hc hpr]

/-- The loop adds one to the processed count per non-blank line. -/
theorem foldl_processed (dir : String) (provider : Provider) :
    ∀ (ps : List (Nat × String)) (st : BatchState),
      (ps.foldl (processLine dir provider) st).processed =
        st.processed + (ps.filter (fun p => pyStrip p.2 ≠ "")).length := by
  intro ps
  induction ps with
  | nil => intro st; simp
  | cons p ps ih =>
    intro st
    rcases p with ⟨i, raw⟩
    by_cases h : pyStrip raw = ""
    · rw [List.foldl_cons, processLine_blank dir provider st i raw h, ih,
        List.filter_cons]
      simp [h]
    · rw [List.foldl_cons, ih, List.filter_cons]
      have h1 := (processLine_one_outcome dir provider st i raw h).1
      simp [h, h1]
      omega

/-- The loop adds one outcome (artifact or error) per non-blank line. -/
theorem foldl_outcomes (dir : String) (provider : Provider) :
    ∀ (ps : List (Nat × String)) (st : BatchState),
      (ps.foldl (processLine dir provider) st).generated +
        (ps.foldl (processLine dir provider) st).errors.length =
      st.generated + st.errors.length +
        (ps.filter (fun p => pyStrip p.2 ≠ "")).length := by
  intro ps
  induction ps with
  | nil => intro st; simp
  | cons p ps ih =>
    intro st
    rcases p with ⟨i, raw⟩
    by_cases h : pyStrip raw = ""
    · rw [List.foldl_cons, processLine_blank dir provider st i raw h, ih,
        List.filter_cons]
      simp [h]
    · rw [List.foldl_cons, ih, List.filter_cons]
      rcases (processLine_one_outcome dir provider st i raw h).2 with
        ⟨hg, _, he⟩ | ⟨hg, _, he⟩ <;> simp [h, hg, he] <;> omega

/-- Filtering the enumerated lines on non-blankness keeps as many entries as
filtering the lines themselves. -/
theorem length_filter_enumFrom (l : List String) :
    ∀ n : Nat, ((l.enumFrom n).filter (fun p => pyStrip p.2 ≠ "")).length =
      (l.filter (fun s => pyStrip s ≠ "")).length := by
  intro n
  calc ((l.enumFrom n).filter (fun p => pyStrip p.2 ≠ "")).length
      = List.countP (fun p => decide (pyStrip p.2 ≠ "")) (l.enumFrom n) := by
        rw [List.countP_eq_length_filter]
    _ = List.countP (fun s => decide (pyStrip s ≠ ""))
          (List.map Prod.snd (l.enumFrom n)) := by
        rw [List.countP_map]; rfl
    _ = (l.filter (fun s => pyStrip s ≠ "")).length := by
        rw [List.enumFrom_map_snd, List.countP_eq_length_filter]

/-- The processed count of a batch equals the number of non-blank lines. -/
theorem runBatch_processed (dir : String) (provider : Provider) (content : String) :
    (runBatch dir provider content).processed = countNonBlank content := by
  rw [runBatch, countNonBlank, List.enum, foldl_processed,
    length_filter_enumFrom]
  simp [initialBatchState]

/-- The generated-artifact count plus the error count of a batch equals the
processed-line count. -/
theorem runBatch_generated_add_errors (dir : String) (provider : Provider)
    (content : String) :
    (runBatch dir provider content).generated +
      (runBatch dir provider content).errors.length =
    (runBatch dir provider content).processed := by
  rw [runBatch, List.enum, foldl_outcomes, foldl_processed]
  simp [initialBatchState]

/-! ### Claim theorems -/

/-- C1: For every script, the processed-line count equals the number of
non-blank lines, and each generated artifact's filename is the zero-padded
3-digit count of processed non-blank lines seen so far, an underscore, and
the character name; in particular the 3-line script whose lines 1 and 3 are
valid and configured and whose line 2 has no colon yields processed 3,
generated 2, one Format Error tagged Line 2, and artifacts
`001_Krishna.mp3` and `003_Radha.mp3`. -/
theorem c1_processed_count_and_filename_index :
    (∀ (dir : String) (provider : Provider) (content : String),
      (runBatch dir provider content).processed = countNonBlank content) ∧
    (∀ (dir : String) (provider : Provider) (st : BatchState) (i : Nat) (raw : String),
      (processLine dir provider st (i, raw)).artifacts = st.artifacts ∨
      ∃ nm, (processLine dir provider st (i, raw)).artifacts =
          st.artifacts ++ [dir ++ "/" ++ pad3 (st.processed + 1) ++ "_" ++ nm ++ ".mp3"] ∧
        (processLine dir provider st (i, raw)).processed = st.processed + 1) ∧
    ((runBatch "voice_overs" (fun _ _ => .ok ())
        "Krishna: hello\nmalformed line\nRadha: hi").processed = 3 ∧
     (runBatch "voice_overs" (fun _ _ => .ok ())
        "Krishna: hello\nmalformed line\nRadha: hi").generated = 2 ∧
     (runBatch "voice_overs" (fun _ _ => .ok ())
        "Krishna: hello\nmalformed line\nRadha: hi").errors =
       ["Line 2 (Format Error): \x27malformed line\x27"] ∧
     (runBatch "voice_overs" (fun _ _ => .ok ())
        "Krishna: hello\nmalformed line\nRadha: hi").artifacts =
       ["voice_overs/001_Krishna.mp3", "voice_overs/003_Radha.mp3"]) :=
  ⟨runBatch_processed, processLine_artifact_naming,
   by decide, by decide, by decide, by decide⟩

/-- C10: Every processed (non-blank) line contributes exactly one outcome,
either one generated artifact or one error entry, never both and never
neither; hence for every script the generated count plus the error count
equals the processed count. -/
theorem c10_one_outcome_per_processed_line :
    (∀ (dir : String) (provider : Provider) (st : BatchState) (i : Nat)
      (raw : String), pyStrip raw ≠ "" →
      (processLine dir provider st (i, raw)).processed = st.processed + 1 ∧
      (((processLine dir provider st (i, raw)).generated = st.generated + 1 ∧
        (processLine dir provider st (i, raw)).artifacts.length = st.artifacts.length + 1 ∧
        (processLine dir provider st (i, raw)).errors = st.errors) ∨
       ((processLine dir provider st (i, raw)).generated = st.generated ∧
        (processLine dir provider st (i, raw)).artifacts = st.artifacts ∧
        (processLine dir provider st (i, raw)).errors.length = st.errors.length + 1))) ∧
    (∀ (dir : String) (provider : Provider) (content : String),
      (runBatch dir provider content).generated +
        (runBatch dir provider content).errors.length =
      (runBatch dir provider content).processed) :=
  ⟨fun dir provider st i raw hnb => processLine_one_outcome dir provider st i raw hnb,
   runBatch_generated_add_errors⟩

/-- Witness for C10 at a concrete non-blank line. -/
theorem c10_one_outcome_per_processed_line_witness :
    (processLine "voice_overs" (fun _ _ => .ok ()) initialBatchState
        (0, "Krishna: hi")).processed = initialBatchState.processed + 1 ∧
    (((processLine "voice_overs" (fun _ _ => .ok ()) initialBatchState
        (0, "Krishna: hi")).generated = initialBatchState.generated + 1 ∧
      (processLine "voice_overs" (fun _ _ => .ok ()) initialBatchState
        (0, "Krishna: hi")).artifacts.length = initialBatchState.artifacts.length + 1 ∧
      (processLine "voice_overs" (fun _ _ => .ok ()) initialBatchState
        (0, "Krishna: hi")).errors = initialBatchState.errors) ∨
     ((processLine "voice_overs" (fun _ _ => .ok ()) initialBatchState
        (0, "Krishna: hi")).generated = initialBatchState.generated ∧
      (processLine "voice_overs" (fun _ _ => .ok ()) initialBatchState
        (0, "Krishna: hi")).artifacts = initialBatchState.artifacts ∧
      (processLine "voice_overs" (fun _ _ => .ok ()) initialBatchState
        (0, "Krishna: hi")).errors.length = initialBatchState.errors.length + 1)) :=
  c10_one_outcome_per_processed_line.1 "voice_overs" (fun _ _ => .ok ())
    initialBatchState 0 "Krishna: hi" (by decide)

/-- C9: Clearing a non-existent directory reports its absence with no
deletions and clearing an empty directory reports zero deletions; when the
directory exists the sweep covers every file, counts the successful
deletions, and a per-file failure does not abort the rest of the sweep. -/
theorem c9_clear_generated_files :
    (∀ (files : List String) (deleteOk : String → Bool),
      clear_generated_files false files deleteOk =
        (("Directory does not exist.", "", false), [])) ∧
    (∀ deleteOk : String → Bool,
      clear_generated_files true [] deleteOk = (("Cleared 0 files.", "", false), [])) ∧
    (∀ (files : List String) (deleteOk : String → Bool),
      clear_generated_files true files deleteOk =
        (("Cleared " ++ toString (files.countP deleteOk) ++ " files.", "", false),
         files.filter deleteOk)) ∧
    clear_generated_files true ["a.mp3", "b.mp3", "c.mp3"] (fun s => s ≠ "b.mp3") =
      (("Cleared 2 files.", "", false), ["a.mp3", "c.mp3"]) :=
  ⟨fun _ _ => rfl, fun _ => by simp only [clear_generated_files, List.countP_nil, List.filter_nil]; rfl, fun _ _ => rfl, by decide⟩

/-! ### Substring-occurrence lemmas -/

theorem leadsWith_self_append (seg t : List Char) :
    leadsWith seg (seg ++ t) = true := by
  induction seg with
  | nil => rfl
  | cons c seg ih => simp [leadsWith, ih]

theorem segOccurs_of_leadsWith (seg l : List Char) (h : leadsWith seg l = true) :
    segOccurs seg l = true := by
  cases l with
  | nil => exact h
  | cons c rest => simp [segOccurs, h]

theorem segOccurs_mid (seg pre post : List Char) :
    segOccurs seg (pre ++ (seg ++ post)) = true := by
  induction pre with
  | nil =>
    exact segOccurs_of_leadsWith seg (seg ++ post) (leadsWith_self_append seg post)
  | cons c pre ih =>
    simp only [List.cons_append, segOccurs, List.append_eq]
    rw [ih]
    simp

theorem segOccurs_head (seg t : List Char) : segOccurs seg (seg ++ t) = true :=
  segOccurs_of_leadsWith seg (seg ++ t) (leadsWith_self_append seg t)

theorem segOccurs_append_right (seg l t : List Char)
    (h : segOccurs seg t = true) : segOccurs seg (l ++ t) = true := by
  induction l with
  | nil => simpa using h
  | cons c l ih =>
    simp only [List.cons_append, segOccurs, List.append_eq]
    rw [ih]
    simp

theorem notConfigured_contains_name (i : Nat) (nm : String) :
    segOccurs nm.data (notConfiguredFor i nm).data = true := by
  have h : (notConfiguredFor i nm).data =
      "Line ".data ++ ((toString (i + 1)).data ++ (": Character \x27".data ++
        (nm.data ++ "\x27 not configured.".data))) := by
    simp [notConfiguredFor, String.data_append, List.append_assoc]
  rw [h]
  exact segOccurs_append_right _ _ _ (segOccurs_append_right _ _ _
    (segOccurs_append_right _ _ _ (segOccurs_head _ _)))

theorem notConfigured_contains_phrase (i : Nat) (nm : String) :
    segOccurs "not configured".data (notConfiguredFor i nm).data = true := by
  have hlit : "\x27 not configured.".data =
      "\x27 ".data ++ ("not configured".data ++ ".".data) := by decide
  have h : (notConfiguredFor i nm).data =
      "Line ".data ++ ((toString (i + 1)).data ++ (": Character \x27".data ++
        (nm.data ++ ("\x27 ".data ++ ("not configured".data ++ ".".data))))) := by
    rw [← hlit]
    simp [notConfiguredFor, String.data_append, List.append_assoc]
  rw [h]
  exact segOccurs_append_right _ _ _ (segOccurs_append_right _ _ _
    (segOccurs_append_right _ _ _ (segOccurs_append_right _ _ _
      (segOccurs_append_right _ _ _ (segOccurs_head _ _)))))

/-- C2 (corrected): the one-colon split dichotomy per non-blank line: both
segments non-empty after trimming gives exactly one dialogue record and no
format error; otherwise exactly one format error tagged with the 1-based
line number and the trimmed (not raw) line text, no record, and processing
continues with the next line. -/
theorem c2_line_parse_dichotomy :
    (∀ (i : Nat) (line a b : String),
      splitOnceColon line = some (a, b) → pyStrip a ≠ "" → pyStrip b ≠ "" →
      parseNonBlankLine i line = .ok (pyStrip a, pyStrip b)) ∧
    (∀ (i : Nat) (line : String),
      (splitOnceColon line = none ∨
       ∃ a b, splitOnceColon line = some (a, b) ∧ (pyStrip a = "" ∨ pyStrip b = "")) →
      parseNonBlankLine i line = .error (formatErrorFor i line)) ∧
    (∀ (dir : String) (provider : Provider) (st : BatchState) (i : Nat)
      (raw : String), pyStrip raw ≠ "" →
      parseNonBlankLine i (pyStrip raw) = .error (formatErrorFor i (pyStrip raw)) →
      processLine dir provider st (i, raw) =
        { st with processed := st.processed + 1,
                  errors := st.errors ++ [formatErrorFor i (pyStrip raw)] }) := by
  refine ⟨?_, ?_, ?_⟩
  · intro i line a b hsplit ha hb
    simp [parseNonBlankLine, hsplit, ha, hb]
  · intro i line h
    rcases h with h | ⟨a, b, hsplit, hab⟩
    · simp [parseNonBlankLine, h]
    · rcases hab with ha | hb
      · simp [parseNonBlankLine, hsplit, ha]
      · simp [parseNonBlankLine, hsplit, hb]
  · intro dir provider st i raw hnb hp
    exact processLine_format dir provider st i raw _ hnb hp

/-- Witness for C2: a well-formed line produces its dialogue record, and a
malformed line produces its tagged format error and one error entry. -/
theorem c2_line_parse_dichotomy_witness :
    parseNonBlankLine 0 "Krishna: hi" = .ok (pyStrip "Krishna", pyStrip " hi") ∧
    parseNonBlankLine 1 "no colon here" = .error (formatErrorFor 1 "no colon here") :=
  ⟨c2_line_parse_dichotomy.1 0 "Krishna: hi" "Krishna" " hi"
     (by decide) (by decide) (by decide),
   c2_line_parse_dichotomy.2.1 1 "no colon here" (Or.inl (by decide))⟩

/-- C2 counterexample: the format error is tagged with the stripped line
text, not the raw line text.  For the raw line `" x "` (surrounding blanks,
no colon) the single produced error quotes `x` and the raw line text does
not occur in it. -/
theorem c2_raw_line_tag_counterexample :
    (processLine "voice_overs" (fun _ _ => .ok ()) initialBatchState
        (0, " x ")).errors = ["Line 1 (Format Error): \x27x\x27"] ∧
    segOccurs " x ".data "Line 1 (Format Error): \x27x\x27".data = false := by
  exact ⟨by decide, by decide⟩

/-- C5: a line whose dialogue cleans to the empty string records exactly one
recoverable no-speakable-text error, generates no artifact, and the
synthesis provider is never consulted (the result does not depend on it). -/
theorem c5_empty_after_cleaning :
    ∀ (dir : String) (provider : Provider) (st : BatchState) (i : Nat)
      (raw nm dlg v : String),
      pyStrip raw ≠ "" →
      parseNonBlankLine i (pyStrip raw) = .ok (nm, dlg) →
      cleanDialogue dlg = "" →
      getVoice nm = some v →
      processLine dir provider st (i, raw) =
        { st with processed := st.processed + 1,
                  errors := st.errors ++ [lineErrorFor i nm noTextMsg] } ∧
      (∀ provider2 : Provider,
        processLine dir provider2 st (i, raw) = processLine dir provider st (i, raw)) := by
  intro dir provider st i raw nm dlg v hnb hp hc hv
  refine ⟨processLine_noText dir provider st i raw nm dlg v hnb hp hv hc, ?_⟩
  intro provider2
  rw [processLine_noText dir provider2 st i raw nm dlg v hnb hp hv hc,
    processLine_noText dir provider st i raw nm dlg v hnb hp hv hc]

/-- Witness for C5 at the line `Krishna: [sigh]`. -/
theorem c5_empty_after_cleaning_witness :
    processLine "voice_overs" (fun _ _ => .ok ()) initialBatchState
        (0, "Krishna: [sigh]") =
      { initialBatchState with
          processed := initialBatchState.processed + 1,
          errors := initialBatchState.errors ++ [lineErrorFor 0 "Krishna" noTextMsg] } :=
  (c5_empty_after_cleaning "voice_overs" (fun _ _ => .ok ()) initialBatchState 0
    "Krishna: [sigh]" "Krishna" "[sigh]" "text-to-speech-en-in-standard-c"
    (by decide) (by rfl) (by decide) (by decide)).1

/-- C6: a line whose character name is not a key of `CHARACTER_VOICES`
records exactly one error containing the character name and the phrase
`not configured`, generates no artifact, the provider is never consulted,
and the batch continues. -/
theorem c6_unconfigured_character :
    ∀ (dir : String) (provider : Provider) (st : BatchState) (i : Nat)
      (raw nm dlg : String),
      pyStrip raw ≠ "" →
      parseNonBlankLine i (pyStrip raw) = .ok (nm, dlg) →
      CHARACTER_VOICES.lookup nm = none →
      processLine dir provider st (i, raw) =
        { st with processed := st.processed + 1,
                  errors := st.errors ++ [notConfiguredFor i nm] } ∧
      segOccurs nm.data (notConfiguredFor i nm).data = true ∧
      segOccurs "not configured".data (notConfiguredFor i nm).data = true ∧
      (∀ provider2 : Provider,
        processLine dir provider2 st (i, raw) = processLine dir provider st (i, raw)) := by
  intro dir provider st i raw nm dlg hnb hp hlk
  have hv : getVoice nm = none := by simp [getVoice, hlk]
  refine ⟨processLine_notConfigured dir provider st i raw nm dlg hnb hp hv,
    notConfigured_contains_name i nm, notConfigured_contains_phrase i nm, ?_⟩
  intro provider2
  rw [processLine_notConfigured dir provider2 st i raw nm dlg hnb hp hv,
    processLine_notConfigured dir provider st i raw nm dlg hnb hp hv]

/-- Witness for C6 at the line `Zed: hello`. -/
theorem c6_unconfigured_character_witness :
    processLine "voice_overs" (fun _ _ => .ok ()) initialBatchState
        (0, "Zed: hello") =
      { initialBatchState with
          processed := initialBatchState.processed + 1,
          errors := initialBatchState.errors ++ [notConfiguredFor 0 "Zed"] } ∧
    segOccurs "Zed".data (notConfiguredFor 0 "Zed").data = true ∧
    segOccurs "not configured".data (notConfiguredFor 0 "Zed").data = true :=
  ⟨(c6_unconfigured_character "voice_overs" (fun _ _ => .ok ()) initialBatchState 0
      "Zed: hello" "Zed" "hello" (by decide) (by rfl) (by decide)).1,
   (c6_unconfigured_character "voice_overs" (fun _ _ => .ok ()) initialBatchState 0
      "Zed: hello" "Zed" "hello" (by decide) (by rfl) (by decide)).2.1,
   (c6_unconfigured_character "voice_overs" (fun _ _ => .ok ()) initialBatchState 0
      "Zed: hello" "Zed" "hello" (by decide) (by rfl) (by decide)).2.2.1⟩

/-- C8: a provider exception on one line yields exactly one recoverable
error entry tagged with the line number and character name and carrying the
provider message, no artifact for that line, and the remaining lines still
process normally (shown on a two-line batch whose first line fails). -/
theorem c8_provider_failure_isolated :
    (∀ (dir : String) (provider : Provider) (st : BatchState) (i : Nat)
      (raw nm dlg v e : String),
      pyStrip raw ≠ "" →
      parseNonBlankLine i (pyStrip raw) = .ok (nm, dlg) →
      getVoice nm = some v →
      cleanDialogue dlg ≠ "" →
      provider v (cleanDialogue dlg) = .error e →
      processLine dir provider st (i, raw) =
        { st with processed := st.processed + 1,
                  errors := st.errors ++ [lineErrorFor i nm (apiErrorFor nm e)] }) ∧
    ((runBatch "voice_overs"
        (fun v _ => if v = "text-to-speech-en-in-standard-c" then .error "quota exceeded"
                    else .ok ())
        "Krishna: hello\nRadha: hi").processed = 2 ∧
     (runBatch "voice_overs"
        (fun v _ => if v = "text-to-speech-en-in-standard-c" then .error "quota exceeded"
                    else .ok ())
        "Krishna: hello\nRadha: hi").generated = 1 ∧
     (runBatch "voice_overs"
        (fun v _ => if v = "text-to-speech-en-in-standard-c" then .error "quota exceeded"
                    else .ok ())
        "Krishna: hello\nRadha: hi").errors =
       [lineErrorFor 0 "Krishna" (apiErrorFor "Krishna" "quota exceeded")] ∧
     (runBatch "voice_overs"
        (fun v _ => if v = "text-to-speech-en-in-standard-c" then .error "quota exceeded"
                    else .ok ())
        "Krishna: hello\nRadha: hi").artifacts = ["voice_overs/002_Radha.mp3"]) := by
  refine ⟨?_, by decide, by decide, by decide, by decide⟩
  intro dir provider st i raw nm dlg v e hnb hp hv hc hpr
  exact processLine_apiError dir provider st i raw nm dlg v e hnb hp hv hc hpr

/-- Witness for C8 at a single failing line. -/
theorem c8_provider_failure_isolated_witness :
    processLine "voice_overs" (fun _ _ => .error "boom") initialBatchState
        (0, "Krishna: hello") =
      { initialBatchState with
          processed := initialBatchState.processed + 1,
          errors := initialBatchState.errors ++
            [lineErrorFor 0 "Krishna" (apiErrorFor "Krishna" "boom")] } :=
  c8_provider_failure_isolated.1 "voice_overs" (fun _ _ => .error "boom")
    initialBatchState 0 "Krishna: hello" "Krishna" "hello"
    "text-to-speech-en-in-standard-c" "boom"
    (by decide) (by rfl) (by decide) (by decide) (by rfl)

/-- C7: a missing upload, a non-`.txt` extension, a missing project
identifier, and any provider-initialization failure each stop the batch
with a single top-level message before any line is parsed or processed:
the outcome is `fatal` (it carries no per-line state) and the rendered
result is just the message with empty output and a hidden clear button. -/
theorem c7_fatal_errors_stop_batch :
    (∀ (env : String → Option String) (initExc : Except String Unit)
      (provider : Provider),
      generate_voice_over_outcome env initExc provider none =
        .fatal "Please upload a script file.") ∧
    (∀ (env : String → Option String) (initExc : Except String Unit)
      (provider : Provider) (f : ScriptFile),
      endsWithTxt f.name = false →
      generate_voice_over_outcome env initExc provider (some f) =
        .fatal "Invalid File Type: Please upload a .txt file.") ∧
    (∀ (env : String → Option String) (initExc : Except String Unit)
      (provider : Provider) (f : ScriptFile),
      endsWithTxt f.name = true →
      env "GCP_PROJECT_ID" = none →
      generate_voice_over_outcome env initExc provider (some f) =
        .fatal configErrorMsg) ∧
    (∀ (env : String → Option String) (initExc : Except String Unit)
      (provider : Provider) (f : ScriptFile) (e : String),
      endsWithTxt f.name = true →
      initialize_vertex_ai env initExc = .error e →
      generate_voice_over_outcome env initExc provider (some f) = .fatal e) ∧
    (∀ (env : String → Option String) (initExc : Except String Unit)
      (provider : Provider) (file : Option ScriptFile) (msg : String),
      generate_voice_over_outcome env initExc provider file = .fatal msg →
      generate_voice_over env initExc provider file = (msg, "", false)) := by
  refine ⟨fun _ _ _ => rfl, ?_, ?_, ?_, ?_⟩
  · intro env initExc provider f h
    simp [generate_voice_over_outcome, h]
  · intro env initExc provider f hx hid
    have hinit : initialize_vertex_ai env initExc = .error configErrorMsg := by
      simp [initialize_vertex_ai, hid]
    simp [generate_voice_over_outcome, hx, hinit]
  · intro env initExc provider f e hx hinit
    simp [generate_voice_over_outcome, hx, hinit]
  · intro env initExc provider file msg h
    rw [generate_voice_over, h]
    rfl

/-- Witness for C7 across its fatal cases. -/
theorem c7_fatal_errors_stop_batch_witness :
    generate_voice_over_outcome (fun _ => none) (.ok ()) (fun _ _ => .ok ())
        (some ⟨"a.pdf", .ok ""⟩) =
      .fatal "Invalid File Type: Please upload a .txt file." ∧
    generate_voice_over_outcome (fun _ => none) (.ok ()) (fun _ _ => .ok ())
        (some ⟨"a.txt", .ok ""⟩) = .fatal configErrorMsg ∧
    generate_voice_over (fun _ => none) (.ok ()) (fun _ _ => .ok ())
        (some ⟨"a.txt", .ok ""⟩) = (configErrorMsg, "", false) :=
  ⟨c7_fatal_errors_stop_batch.2.1 (fun _ => none) (.ok ()) (fun _ _ => .ok ())
     ⟨"a.pdf", .ok ""⟩ (by decide),
   c7_fatal_errors_stop_batch.2.2.1 (fun _ => none) (.ok ()) (fun _ _ => .ok ())
     ⟨"a.txt", .ok ""⟩ (by decide) rfl,
   c7_fatal_errors_stop_batch.2.2.2.2 (fun _ => none) (.ok ()) (fun _ _ => .ok ())
     (some ⟨"a.txt", .ok ""⟩) configErrorMsg
     (c7_fatal_errors_stop_batch.2.2.1 (fun _ => none) (.ok ()) (fun _ _ => .ok ())
       ⟨"a.txt", .ok ""⟩ (by decide) rfl)⟩

/-! ### Whitespace-normalization algebra -/

theorem isPySpace_space : isPySpace ' ' = true := by decide

theorem dts_cons_nil (c : Char) (rest : List Char) (hc : isPySpace c = true)
    (hr : dropTrailingSpaces rest = []) :
    dropTrailingSpaces (c :: rest) = [] := by
  simp [dropTrailingSpaces, hc, hr]

theorem dts_cons_of_ne (c : Char) (rest : List Char)
    (hr : dropTrailingSpaces rest ≠ []) :
    dropTrailingSpaces (c :: rest) = c :: dropTrailingSpaces rest := by
  simp [dropTrailingSpaces, hr]

theorem dts_cons_nonspace (c : Char) (rest : List Char)
    (hc : isPySpace c = false) :
    dropTrailingSpaces (c :: rest) = c :: dropTrailingSpaces rest := by
  simp [dropTrailingSpaces, hc]

theorem dts_idem (l : List Char) :
    dropTrailingSpaces (dropTrailingSpaces l) = dropTrailingSpaces l := by
  induction l with
  | nil => rfl
  | cons c rest ih =>
    by_cases h : isPySpace c && (dropTrailingSpaces rest).isEmpty
    · simp [dropTrailingSpaces, h]
    · have h1 : dropTrailingSpaces (c :: rest) = c :: dropTrailingSpaces rest := by
        simp [dropTrailingSpaces, h]
      rw [h1]
      simp [dropTrailingSpaces, ih, h]

theorem collapse_cons_nonspace (c : Char) (rest : List Char)
    (hc : isPySpace c = false) :
    collapseList (c :: rest) = c :: collapseList rest := by
  cases rest with
  | nil => simp [collapseList, hc]
  | cons d r => simp [collapseList, hc]

theorem collapse_cons2_ss (c d : Char) (rest : List Char)
    (hc : isPySpace c = true) (hd : isPySpace d = true) :
    collapseList (c :: d :: rest) = collapseList (d :: rest) := by
  simp [collapseList, hc, hd]

theorem collapse_cons2_sn (c d : Char) (rest : List Char)
    (hc : isPySpace c = true) (hd : isPySpace d = false) :
    collapseList (c :: d :: rest) = ' ' :: collapseList (d :: rest) := by
  simp [collapseList, hc, hd]

theorem collapse_ne_nil (l : List Char) (h : l ≠ []) : collapseList l ≠ [] := by
  induction l with
  | nil => exact absurd rfl h
  | cons c tail ih =>
    cases tail with
    | nil => by_cases hc : isPySpace c <;> simp [collapseList, hc]
    | cons d rest =>
      by_cases hc : isPySpace c
      · by_cases hd : isPySpace d
        · rw [collapse_cons2_ss c d rest hc hd]
          exact ih (by simp)
        · simp [collapse_cons2_sn c d rest hc (by simpa using hd)]
      · simp [collapse_cons_nonspace c _ (by simpa using hc)]

theorem collapse_idem (l : List Char) :
    collapseList (collapseList l) = collapseList l := by
  induction l with
  | nil => rfl
  | cons c tail ih =>
    cases tail with
    | nil => by_cases hc : isPySpace c <;> simp [collapseList, hc, isPySpace_space]
    | cons d rest =>
      by_cases hc : isPySpace c
      · by_cases hd : isPySpace d
        · rw [collapse_cons2_ss c d rest hc hd, ih]
        · have hd' : isPySpace d = false := by simpa using hd
          rw [collapse_cons2_sn c d rest hc hd', collapse_cons_nonspace d rest hd',
            collapse_cons2_sn ' ' d (collapseList rest) isPySpace_space hd',
            ← collapse_cons_nonspace d rest hd', ih]
      · have hc' : isPySpace c = false := by simpa using hc
        rw [collapse_cons_nonspace c (d :: rest) hc',
          collapse_cons_nonspace c (collapseList (d :: rest)) hc', ih]

theorem dropWhile_collapse (l : List Char) :
    (collapseList l).dropWhile isPySpace = collapseList (l.dropWhile isPySpace) := by
  induction l with
  | nil => rfl
  | cons c tail ih =>
    cases tail with
    | nil =>
      by_cases hc : isPySpace c
      · simp [collapseList, hc, List.dropWhile, isPySpace_space]
      · simp [collapseList, hc, List.dropWhile]
    | cons d rest =>
      by_cases hc : isPySpace c
      · by_cases hd : isPySpace d
        · rw [collapse_cons2_ss c d rest hc hd, ih,
            List.dropWhile_cons_of_pos hc]
        · have hd' : isPySpace d = false := by simpa using hd
          rw [collapse_cons2_sn c d rest hc hd',
            List.dropWhile_cons_of_pos isPySpace_space, ih,
            List.dropWhile_cons_of_pos hc]
      · have hc' : isPySpace c = false := by simpa using hc
        rw [collapse_cons_nonspace c (d :: rest) hc',
          List.dropWhile_cons_of_neg (by simp [hc']),
          List.dropWhile_cons_of_neg (by simp [hc']),
          collapse_cons_nonspace c (d :: rest) hc']

theorem dts_cons_shape (c : Char) (rest : List Char) :
    dropTrailingSpaces (c :: rest) = [] ∨
    dropTrailingSpaces (c :: rest) = c :: dropTrailingSpaces rest := by
  by_cases h : isPySpace c && (dropTrailingSpaces rest).isEmpty
  · left; simp [dropTrailingSpaces, h]
  · right; simp [dropTrailingSpaces, h]

theorem dts_collapse (l : List Char) :
    dropTrailingSpaces (collapseList l) = collapseList (dropTrailingSpaces l) := by
  induction l with
  | nil => rfl
  | cons c tail ih =>
    cases tail with
    | nil =>
      by_cases hc : isPySpace c
      · simp [collapseList, hc, dropTrailingSpaces, isPySpace_space]
      · simp [collapseList, hc, dropTrailingSpaces]
    | cons d rest =>
      by_cases hd0 : isPySpace d
      · -- the head of a non-empty dropTrailingSpaces (d :: rest) is d
        by_cases hc : isPySpace c
        · rw [collapse_cons2_ss c d rest hc hd0, ih]
          by_cases hr : dropTrailingSpaces (d :: rest) = []
          · rw [dts_cons_nil c (d :: rest) hc hr, hr]
          · rw [dts_cons_of_ne c (d :: rest) hr]
            rcases dts_cons_shape d rest with h | h
            · exact absurd h hr
            · rw [h, collapse_cons2_ss c d (dropTrailingSpaces rest) hc hd0]
        · have hc' : isPySpace c = false := by simpa using hc
          rw [collapse_cons_nonspace c (d :: rest) hc',
            dts_cons_nonspace c (collapseList (d :: rest)) hc', ih,
            dts_cons_nonspace c (d :: rest) hc',
            collapse_cons_nonspace c (dropTrailingSpaces (d :: rest)) hc']
      · have hd' : isPySpace d = false := by simpa using hd0
        have hdts : dropTrailingSpaces (d :: rest) = d :: dropTrailingSpaces rest :=
          dts_cons_nonspace d rest hd'
        have hne : dropTrailingSpaces (d :: rest) ≠ [] := by
          rw [hdts]; exact List.cons_ne_nil d _
        have hlhs : dropTrailingSpaces (collapseList (d :: rest)) =
            d :: collapseList (dropTrailingSpaces rest) := by
          rw [ih, hdts, collapse_cons_nonspace d (dropTrailingSpaces rest) hd']
        have hlne : dropTrailingSpaces (collapseList (d :: rest)) ≠ [] := by
          rw [hlhs]; exact List.cons_ne_nil d _
        by_cases hc : isPySpace c
        · rw [collapse_cons2_sn c d rest hc hd',
            dts_cons_of_ne ' ' (collapseList (d :: rest)) hlne, hlhs,
            dts_cons_of_ne c (d :: rest) hne, hdts,
            collapse_cons2_sn c d (dropTrailingSpaces rest) hc hd',
            collapse_cons_nonspace d (dropTrailingSpaces rest) hd']
        · have hc' : isPySpace c = false := by simpa using hc
          rw [collapse_cons_nonspace c (d :: rest) hc',
            dts_cons_nonspace c (collapseList (d :: rest)) hc', ih,
            dts_cons_nonspace c (d :: rest) hc',
            collapse_cons_nonspace c (dropTrailingSpaces (d :: rest)) hc']

theorem dropWhile_strip (l : List Char) :
    (pyStripList l).dropWhile isPySpace = pyStripList l := by
  rw [pyStripList]
  cases h : l.dropWhile isPySpace with
  | nil => rfl
  | cons x xs =>
    have w : l.dropWhile isPySpace ≠ [] := by
      rw [h]; exact List.cons_ne_nil _ _
    have hx : isPySpace x = false := by
      have hx0 := List.head_dropWhile_not isPySpace l w
      simp [h] at hx0
      exact hx0
    rcases dts_cons_shape x xs with h2 | h2
    · rw [h2]; rfl
    · rw [h2, List.dropWhile_cons_of_neg (by simp [hx])]

theorem collapse_strip_comm (l : List Char) :
    collapseList (pyStripList l) = pyStripList (collapseList l) := by
  rw [pyStripList, pyStripList, ← dts_collapse, ← dropWhile_collapse]

theorem strip_norm (l : List Char) :
    pyStripList (collapseList (pyStripList l)) = collapseList (pyStripList l) := by
  have h1 : (collapseList (pyStripList l)).dropWhile isPySpace =
      collapseList (pyStripList l) := by
    rw [dropWhile_collapse, dropWhile_strip]
  have h2 : dropTrailingSpaces (collapseList (pyStripList l)) =
      collapseList (pyStripList l) := by
    rw [dts_collapse, pyStripList, dts_idem]
  calc pyStripList (collapseList (pyStripList l))
      = dropTrailingSpaces ((collapseList (pyStripList l)).dropWhile isPySpace) := rfl
    _ = dropTrailingSpaces (collapseList (pyStripList l)) := by rw [h1]
    _ = collapseList (pyStripList l) := h2

theorem norm_idem (l : List Char) :
    collapseList (pyStripList (collapseList (pyStripList l))) =
      collapseList (pyStripList l) := by
  rw [strip_norm, collapse_idem]

/-! ### Bracket-removal algebra -/

theorem rbAux_no_close (l : List Char) (h : ']' ∉ l) :
    rbAux none l = l ∧ ∀ pend, rbAux (some pend) l = pend ++ l := by
  induction l with
  | nil => exact ⟨rfl, fun pend => by simp [rbAux]⟩
  | cons c rest ih =>
    have hc : c ≠ ']' := fun hc => h (hc ▸ List.mem_cons_self c rest)
    have hr : ']' ∉ rest := fun hm => h (List.mem_cons_of_mem c hm)
    have ih2 := ih hr
    constructor
    · by_cases hlb : c = '['
      · subst hlb
        rw [rbAux]
        simp only [beq_self_eq_true, if_pos]
        rw [ih2.2 ['[']]
        rfl
      · rw [rbAux, if_neg (by simpa using hlb), ih2.1]
    · intro pend
      by_cases hnl : c = '\n'
      · subst hnl
        rw [rbAux, if_neg (by decide), if_pos (by decide), ih2.1]
      · rw [rbAux, if_neg (by simpa using hc), if_neg (by simpa using hnl),
          ih2.2 (pend ++ [c])]
        simp

theorem hasOTC_false_of_no_close (l : List Char) (h : ']' ∉ l) :
    hasOpenThenClose l = false := by
  induction l with
  | nil => rfl
  | cons c rest ih =>
    have hr : ']' ∉ rest := fun hm => h (List.mem_cons_of_mem c hm)
    by_cases hlb : c = '['
    · subst hlb
      rw [hasOpenThenClose]
      simp only [beq_self_eq_true, if_pos]
      rw [List.any_eq_false]
      intro x hx
      rw [beq_iff_eq]
      exact fun he => hr (he ▸ hx)
    · rw [hasOpenThenClose, if_neg (by simpa using hlb)]
      exact ih hr

theorem removeBrackets_id (l : List Char) (h : hasOpenThenClose l = false) :
    rbAux none l = l := by
  induction l with
  | nil => rfl
  | cons c rest ih =>
    by_cases hlb : c = '['
    · subst hlb
      rw [hasOpenThenClose] at h
      simp only [beq_self_eq_true, if_pos] at h
      have hr : ']' ∉ rest := by
        rw [List.any_eq_false] at h
        intro hm
        have := h ']' hm
        simp at this
      rw [rbAux]
      simp only [beq_self_eq_true, if_pos]
      rw [(rbAux_no_close rest hr).2 ['[']]
      rfl
    · rw [hasOpenThenClose, if_neg (by simpa using hlb)] at h
      rw [rbAux, if_neg (by simpa using hlb), ih h]

theorem rbAux_hasOTC (l : List Char) (hn : '\n' ∉ l) :
    hasOpenThenClose (rbAux none l) = false ∧
    ∀ pend, ']' ∉ pend → hasOpenThenClose (rbAux (some pend) l) = false := by
  induction l with
  | nil => exact ⟨rfl, fun pend hp => hasOTC_false_of_no_close pend hp⟩
  | cons c rest ih =>
    have hcn : c ≠ '\n' := fun hc => hn (hc ▸ List.mem_cons_self c rest)
    have hrn : '\n' ∉ rest := fun hm => hn (List.mem_cons_of_mem c hm)
    have ih2 := ih hrn
    constructor
    · by_cases hlb : c = '['
      · subst hlb
        rw [rbAux]
        simp only [beq_self_eq_true, if_pos]
        exact ih2.2 ['['] (by decide)
      · rw [rbAux, if_neg (by simpa using hlb), hasOpenThenClose,
          if_neg (by simpa using hlb)]
        exact ih2.1
    · intro pend hp
      by_cases hcl : c = ']'
      · subst hcl
        rw [rbAux]
        simp only [beq_self_eq_true, if_pos]
        exact ih2.1
      · rw [rbAux, if_neg (by simpa using hcl), if_neg (by simpa using hcn)]
        refine ih2.2 (pend ++ [c]) ?_
        intro hm
        rcases List.mem_append.mp hm with hm | hm
        · exact hp hm
        · simp at hm
          exact hcl hm.symm

theorem bracketsOnly_cons_bracket (c : Char) (rest : List Char)
    (hb : (c == '[' || c == ']') = true) :
    bracketsOnly (c :: rest) = c :: bracketsOnly rest := by
  simp only [bracketsOnly, List.filter_cons, hb, if_pos]

theorem bracketsOnly_cons_other (c : Char) (rest : List Char)
    (hb : (c == '[' || c == ']') = false) :
    bracketsOnly (c :: rest) = bracketsOnly rest := by
  simp only [bracketsOnly, List.filter_cons, hb]
  rfl

theorem anyClose_bracketsOnly (l : List Char) :
    (bracketsOnly l).any (fun x => x == ']') = l.any (fun x => x == ']') := by
  induction l with
  | nil => rfl
  | cons c rest ih =>
    by_cases hb : (c == '[' || c == ']') = true
    · rw [bracketsOnly_cons_bracket c rest hb, List.any_cons, List.any_cons, ih]
    · have hb' : (c == '[' || c == ']') = false := by simpa using hb
      have hc : (c == ']') = false := (Bool.or_eq_false_iff.mp hb').2
      rw [bracketsOnly_cons_other c rest hb', ih, List.any_cons, hc]
      simp

theorem hasOTC_bracketsOnly (l : List Char) :
    hasOpenThenClose (bracketsOnly l) = hasOpenThenClose l := by
  induction l with
  | nil => rfl
  | cons c rest ih =>
    by_cases hlb : c = '['
    · subst hlb
      rw [bracketsOnly_cons_bracket '[' rest (by decide),
        hasOpenThenClose, hasOpenThenClose]
      simp only [beq_self_eq_true, if_pos]
      exact anyClose_bracketsOnly rest
    · by_cases hcl : c = ']'
      · subst hcl
        rw [bracketsOnly_cons_bracket ']' rest (by decide),
          hasOpenThenClose, hasOpenThenClose, if_neg (by decide),
          if_neg (by decide)]
        exact ih
      · have hb : (c == '[' || c == ']') = false := by simp [hlb, hcl]
        rw [bracketsOnly_cons_other c rest hb, hasOpenThenClose,
          if_neg (by simpa using hlb)]
        exact ih

theorem space_not_bracket (c : Char) (hc : isPySpace c = true) :
    (c == '[' || c == ']') = false := by
  by_cases hlb : c = '['
  · subst hlb; exact absurd hc (by decide)
  · by_cases hcl : c = ']'
    · subst hcl; exact absurd hc (by decide)
    · simp [hlb, hcl]

theorem bracketsOnly_all_space (l : List Char)
    (h : ∀ c ∈ l, isPySpace c = true) : bracketsOnly l = [] := by
  induction l with
  | nil => rfl
  | cons c rest ih =>
    rw [bracketsOnly_cons_other c rest
      (space_not_bracket c (h c (List.mem_cons_self c rest)))]
    exact ih fun x hx => h x (List.mem_cons_of_mem c hx)

theorem dts_nil_all_space (l : List Char) (h : dropTrailingSpaces l = []) :
    ∀ c ∈ l, isPySpace c = true := by
  induction l with
  | nil => intro c hc; simp at hc
  | cons c rest ih =>
    intro x hx
    by_cases hcond : (isPySpace c && (dropTrailingSpaces rest).isEmpty) = true
    · rcases Bool.and_eq_true_iff.mp hcond with ⟨h1, h2⟩
      rcases List.mem_cons.mp hx with hx | hx
      · exact hx ▸ h1
      · exact ih (by simpa using h2) x hx
    · rw [dropTrailingSpaces, if_neg (by simpa using hcond)] at h
      exact absurd h (List.cons_ne_nil c _)

theorem bracketsOnly_dropWhile (l : List Char) :
    bracketsOnly (l.dropWhile isPySpace) = bracketsOnly l := by
  induction l with
  | nil => rfl
  | cons c rest ih =>
    by_cases hc : isPySpace c = true
    · rw [List.dropWhile_cons_of_pos hc, ih,
        bracketsOnly_cons_other c rest (space_not_bracket c hc)]
    · rw [List.dropWhile_cons_of_neg (by simpa using hc)]

theorem bracketsOnly_dts (l : List Char) :
    bracketsOnly (dropTrailingSpaces l) = bracketsOnly l := by
  induction l with
  | nil => rfl
  | cons c rest ih =>
    by_cases hcond : (isPySpace c && (dropTrailingSpaces rest).isEmpty) = true
    · rcases Bool.and_eq_true_iff.mp hcond with ⟨h1, h2⟩
      rw [dropTrailingSpaces, if_pos hcond]
      have hall : ∀ x ∈ c :: rest, isPySpace x = true := by
        intro x hx
        rcases List.mem_cons.mp hx with hx | hx
        · exact hx ▸ h1
        · exact dts_nil_all_space rest (by simpa using h2) x hx
      rw [bracketsOnly_all_space (c :: rest) hall]
      rfl
    · rw [dropTrailingSpaces, if_neg (by simpa using hcond)]
      by_cases hb : (c == '[' || c == ']') = true
      · rw [bracketsOnly_cons_bracket c (dropTrailingSpaces rest) hb, ih,
          bracketsOnly_cons_bracket c rest hb]
      · have hb' : (c == '[' || c == ']') = false := by simpa using hb
        rw [bracketsOnly_cons_other c (dropTrailingSpaces rest) hb', ih,
          bracketsOnly_cons_other c rest hb']

theorem bracketsOnly_collapse (l : List Char) :
    bracketsOnly (collapseList l) = bracketsOnly l := by
  induction l with
  | nil => rfl
  | cons c tail ih =>
    cases tail with
    | nil =>
      by_cases hc : isPySpace c = true
      · rw [collapseList, if_pos hc,
          bracketsOnly_cons_other ' ' [] (space_not_bracket ' ' (by decide)),
          bracketsOnly_cons_other c [] (space_not_bracket c hc)]
      · rw [collapseList, if_neg (by simpa using hc)]
    | cons d rest =>
      by_cases hc : isPySpace c = true
      · have hcb := space_not_bracket c hc
        by_cases hd : isPySpace d = true
        · rw [collapse_cons2_ss c d rest hc hd, ih,
            bracketsOnly_cons_other c (d :: rest) hcb]
        · rw [collapse_cons2_sn c d rest hc (by simpa using hd),
            bracketsOnly_cons_other ' ' (collapseList (d :: rest))
              (space_not_bracket ' ' (by decide)), ih,
            bracketsOnly_cons_other c (d :: rest) hcb]
      · rw [collapse_cons_nonspace c (d :: rest) (by simpa using hc)]
        by_cases hb : (c == '[' || c == ']') = true
        · rw [bracketsOnly_cons_bracket c (collapseList (d :: rest)) hb, ih,
            bracketsOnly_cons_bracket c (d :: rest) hb]
        · have hb' : (c == '[' || c == ']') = false := by simpa using hb
          rw [bracketsOnly_cons_other c (collapseList (d :: rest)) hb', ih,
            bracketsOnly_cons_other c (d :: rest) hb']

theorem bracketsOnly_norm (l : List Char) :
    bracketsOnly (collapseList (pyStripList l)) = bracketsOnly l := by
  rw [bracketsOnly_collapse, pyStripList, bracketsOnly_dts, bracketsOnly_dropWhile]

theorem rbAux_eq_ref (l : List Char) (hn : '\n' ∉ l) :
    rbAux none l = refRbAux none l ∧
    ∀ pend, rbAux (some pend) l = refRbAux (some pend) l := by
  induction l with
  | nil => exact ⟨rfl, fun _ => rfl⟩
  | cons c rest ih =>
    have hcn : c ≠ '\n' := fun hc => hn (hc ▸ List.mem_cons_self c rest)
    have hrn : '\n' ∉ rest := fun hm => hn (List.mem_cons_of_mem c hm)
    have ih2 := ih hrn
    constructor
    · by_cases hlb : c = '['
      · subst hlb
        rw [rbAux, refRbAux]
        simp only [beq_self_eq_true, if_pos]
        exact ih2.2 ['[']
      · rw [rbAux, refRbAux, if_neg (by simpa using hlb),
          if_neg (by simpa using hlb), ih2.1]
    · intro pend
      by_cases hcl : c = ']'
      · subst hcl
        rw [rbAux, refRbAux]
        simp only [beq_self_eq_true, if_pos]
        exact ih2.1
      · rw [rbAux, refRbAux, if_neg (by simpa using hcl),
          if_neg (by simpa using hcn), if_neg (by simpa using hcl), ih2.2]


set_option maxHeartbeats 1600000 in
theorem splitlinesAux_cons_other (cur : List Char) (c : Char) (rest : List Char)
    (hc : c ≠ '\x0d') :
    splitlinesAux cur (c :: rest) =
      if isLineBreakChar c = true then cur :: splitlinesAux [] rest
      else splitlinesAux (cur ++ [c]) rest := by
  rw [splitlinesAux.eq_def]
  split
  · rename_i heq
    exact absurd heq (List.cons_ne_nil c rest)
  · rename_i heq
    injection heq with h1 h2
    exact absurd h1 hc
  · rename_i heq
    injection heq with h1 h2
    exact absurd h1 hc
  · rename_i heq
    injection heq with h1 h2
    subst h1
    subst h2
    rfl

set_option maxHeartbeats 1600000 in
theorem splitlinesAux_no_newline :
    ∀ (cur l : List Char), '\n' ∉ cur → ∀ m ∈ splitlinesAux cur l, '\n' ∉ m := by
  intro cur l
  induction cur, l using splitlinesAux.induct with
  | case1 cur hemp =>
    intro hcur m hm
    rw [splitlinesAux, if_pos hemp] at hm
    simp at hm
  | case2 cur hemp =>
    intro hcur m hm
    rw [splitlinesAux, if_neg hemp] at hm
    rcases List.mem_singleton.mp hm with rfl
    exact hcur
  | case3 cur rest2 ih =>
    intro hcur m hm
    rw [show splitlinesAux cur ('\x0d' :: '\n' :: rest2) =
        cur :: splitlinesAux [] rest2 from rfl] at hm
    rcases List.mem_cons.mp hm with rfl | hm
    · exact hcur
    · exact ih (by simp) m hm
  | case4 cur rest hne ih =>
    intro hcur m hm
    have heq : splitlinesAux cur ('\x0d' :: rest) = cur :: splitlinesAux [] rest := by
      cases rest with
      | nil => rfl
      | cons r rs =>
        by_cases hr : r = '\n'
        · exact absurd (hr ▸ rfl) (fun h => hne rs h)
        · simp [splitlinesAux, hr]
    rw [heq] at hm
    rcases List.mem_cons.mp hm with rfl | hm
    · exact hcur
    · exact ih (by simp) m hm
  | case5 cur c rest hne1 hne2 hlb ih =>
    intro hcur m hm
    rw [splitlinesAux_cons_other cur c rest (fun h => hne2 h), if_pos hlb] at hm
    rcases List.mem_cons.mp hm with rfl | hm
    · exact hcur
    · exact ih (by simp) m hm
  | case6 cur c rest hne1 hne2 hlb ih =>
    intro hcur m hm
    have hcn : c ≠ '\n' := by
      intro h
      exact hlb (by rw [h]; decide)
    rw [splitlinesAux_cons_other cur c rest (fun h => hne2 h),
      if_neg hlb] at hm
    refine ih ?_ m hm
    intro hx
    rcases List.mem_append.mp hx with hx | hx
    · exact hcur hx
    · simp at hx
      exact hcn hx.symm

/-- Every line produced by `str.splitlines()` contains no newline character;
in particular every dialogue text handled by the loop is newline-free. -/
theorem pySplitlines_no_newline (content : String) :
    ∀ line ∈ pySplitlines content, '\n' ∉ line.data := by
  intro line hline
  rcases List.mem_map.mp hline with ⟨m, hm, rfl⟩
  exact splitlinesAux_no_newline [] content.data (by simp) m hm

theorem clean_eq_refClean (s : String) (hn : '\n' ∉ s.data) :
    cleanDialogue s = refCleanSpec s := by
  show String.mk (collapseList (pyStripList (removeBracketsList s.data))) =
    String.mk (pyStripList (collapseList (refRemoveBracketsList s.data)))
  rw [removeBracketsList, refRemoveBracketsList, (rbAux_eq_ref s.data hn).1,
    collapse_strip_comm]

/-- C3: on every dialogue text (texts drawn from script lines, which are
newline-free), the code's cleaning equals the reference definition that
removes every bracket-delimited span and then collapses whitespace runs and
trims, and the concrete example cleans as specified. -/
theorem c3_cleaning_matches_reference :
    (∀ content : String, ∀ line ∈ pySplitlines content, '\n' ∉ line.data) ∧
    (∀ s : String, '\n' ∉ s.data → cleanDialogue s = refCleanSpec s) ∧
    cleanDialogue "Hi [whisper] there [pause] friend" = "Hi there friend" :=
  ⟨pySplitlines_no_newline, clean_eq_refClean, by decide⟩

/-- Witness for C3 at the concrete example text. -/
theorem c3_cleaning_matches_reference_witness :
    cleanDialogue "Hi [whisper] there [pause] friend" =
      refCleanSpec "Hi [whisper] there [pause] friend" :=
  c3_cleaning_matches_reference.2.1 "Hi [whisper] there [pause] friend" (by decide)

/-- C4 counterexample: cleaning is not idempotent on arbitrary strings.  In
`"[a\nb]"` the newline blocks the bracket match (regex `.` does not cross a
newline), the whitespace collapse then turns the newline into a space, and
the second cleaning removes the now-complete span: one cleaning gives
`"[a b]"`, two give `""`. -/
theorem c4_idempotence_counterexample :
    cleanDialogue (cleanDialogue "[a\nb]") ≠ cleanDialogue "[a\nb]" := by
  decide

/-- C4 (corrected): cleaning is idempotent on every string containing no
newline character, which covers every dialogue text the program cleans. -/
theorem c4_clean_idempotent_on_newline_free (s : String) (hn : '\n' ∉ s.data) :
    cleanDialogue (cleanDialogue s) = cleanDialogue s := by
  have hOTC : hasOpenThenClose (rbAux none s.data) = false :=
    (rbAux_hasOTC s.data hn).1
  have hOTC2 : hasOpenThenClose
      (collapseList (pyStripList (rbAux none s.data))) = false := by
    rw [← hasOTC_bracketsOnly, bracketsOnly_norm, hasOTC_bracketsOnly]
    exact hOTC
  have hid : rbAux none (collapseList (pyStripList (rbAux none s.data))) =
      collapseList (pyStripList (rbAux none s.data)) :=
    removeBrackets_id _ hOTC2
  show String.mk
      (collapseList (pyStripList (removeBracketsList (cleanDialogue s).data))) =
    cleanDialogue s
  have hdata : (cleanDialogue s).data =
      collapseList (pyStripList (rbAux none s.data)) := rfl
  rw [hdata, removeBracketsList, hid, norm_idem]
  rfl

/-- Witness for C4 on a concrete newline-free dialogue text. -/
theorem c4_clean_idempotent_on_newline_free_witness :
    cleanDialogue (cleanDialogue "Hi [whisper] there") =
      cleanDialogue "Hi [whisper] there" :=
  c4_clean_idempotent_on_newline_free "Hi [whisper] there" (by decide)
